import Mathlib

namespace EchoLog

/-!
Shallow embedding of the EchoLog stealth meeting-automation engine:
the GoogleMeetAutomation class (apps/backend/src/services/puppetter.services.ts)
and the GoogleMeetService facade (apps/backend/src/services/googleMeet.service.ts).
Outcomes of external I/O (browser launch, recorder start/stop, browser close,
per-strategy DOM outcomes, randomness draws) are passed as explicit boolean or
list inputs; each operation returns its result together with the successor
state, so a thrown JS exception is modelled as an error result paired with the
state at the throw point.
-/

/-- Construction-time configuration of one GoogleMeetAutomation instance:
the subset of GoogleMeetOptions that the GoogleMeetService facade fills in
(guestName, recordingPath, cameraEnabled, micEnabled, headless). -/
structure AutoOptions where
  guestName : String
  recordingPath : String
  cameraEnabled : Bool
  micEnabled : Bool
  headless : Bool
deriving Repr, DecidableEq

/-- Mutable runtime state of one GoogleMeetAutomation instance: the fields
browser, page, recorder (modelled by presence booleans), isRecording and
recordingFile of the class. -/
structure AutoState where
  hasBrowser : Bool
  hasPage : Bool
  hasRecorder : Bool
  isRecording : Bool
  recordingFile : Option String
deriving Repr, DecidableEq

/-- State of a freshly constructed GoogleMeetAutomation: browser, page and
recorder are null, isRecording is false, recordingFile is null. -/
def AutoState.initial : AutoState :=
  { hasBrowser := false, hasPage := false, hasRecorder := false,
    isRecording := false, recordingFile := none }

/-- GoogleMeetAutomation.startRecording. Inputs: ffmpegOk is the outcome of
the ffmpeg availability check, recorderStartOk the outcome of the underlying
recorder start call, newFile the timestamp-derived output path computed for
this call. The duration argument of the source only sets the
recordDurationLimit field of the recorder configuration and is not otherwise
observable, so it is omitted. Returns the result (the thrown error message on
failure) together with the state when control returns. -/
def startRecording (s : AutoState) (ffmpegOk recorderStartOk : Bool)
    (newFile : String) : Except String String × AutoState :=
  if !s.hasPage then
    (Except.error "Browser not initialized. Call joinMeeting first.", s)
  else if s.isRecording then
    (Except.ok (s.recordingFile.getD ""), s)
  else if !ffmpegOk then
    (Except.error "ffmpeg is required for recording but is not available", s)
  else
    let s1 := { s with recordingFile := some newFile, hasRecorder := true }
    if recorderStartOk then
      (Except.ok newFile, { s1 with isRecording := true })
    else
      (Except.error "Failed to start recording", s1)

/-- Trace of one GoogleMeetAutomation.stopRecording call: its returned value,
the instance state at the moment the underlying recorder stop call is awaited
(what a concurrent operation would observe), and the state when control
returns. -/
structure StopTrace where
  result : Option String
  stateAtAwait : AutoState
  finalState : AutoState
deriving Repr, DecidableEq

/-- GoogleMeetAutomation.stopRecording. The source clears recorder,
isRecording and recordingFile before awaiting the recorder stop call, keeping
the old recordingFile in a local; on an error from the underlying stop it
catches and returns null. recorderStopOk is the outcome of the underlying
stop call. -/
def stopRecording (s : AutoState) (recorderStopOk : Bool) : StopTrace :=
  if !s.isRecording || !s.hasRecorder then
    { result := none, stateAtAwait := s, finalState := s }
  else
    let cleared : AutoState :=
      { s with hasRecorder := false, isRecording := false, recordingFile := none }
    if recorderStopOk then
      { result := s.recordingFile, stateAtAwait := cleared, finalState := cleared }
    else
      { result := none, stateAtAwait := cleared, finalState := cleared }

/-- Result of GoogleMeetAutomation.close: whether it completed without
throwing, and the instance state when control returns. -/
structure CloseTrace where
  ok : Bool
  finalState : AutoState
deriving Repr, DecidableEq

/-- GoogleMeetAutomation.close: stops an active recording first, then closes
the browser and nulls browser and page. A rejected browser close propagates
(ok = false) and leaves browser and page set. -/
def close (s : AutoState) (recorderStopOk browserCloseOk : Bool) : CloseTrace :=
  let s1 := if s.isRecording then (stopRecording s recorderStopOk).finalState else s
  if s1.hasBrowser then
    if browserCloseOk then
      { ok := true, finalState := { s1 with hasBrowser := false, hasPage := false } }
    else
      { ok := false, finalState := s1 }
  else
    { ok := true, finalState := s1 }

/-- C1 counterexample: with a recording already active (file rec-1.mp4), a
second startRecording call does not raise AlreadyRecording or any error; it
returns Except.ok with the first recording file path and leaves the state
unchanged. This refutes the claim that the second call raises
AlreadyRecording. -/
theorem startRecording_second_call_does_not_raise :
    startRecording
      { hasBrowser := true, hasPage := true, hasRecorder := true,
        isRecording := true, recordingFile := some "rec-1.mp4" } true true "rec-2.mp4"
      = (Except.ok "rec-1.mp4",
         { hasBrowser := true, hasPage := true, hasRecorder := true,
           isRecording := true, recordingFile := some "rec-1.mp4" }) := by
  rfl

/-- C1 amended: for every state with the page present and a recording active,
a second startRecording call (with any ffmpeg or recorder outcomes and any new
file name) raises no error: it returns the first recording file path (empty
string if unset) and leaves the whole state, in particular the recording file
path, unchanged. -/
theorem startRecording_second_call_keeps_path (s : AutoState)
    (ffmpegOk recorderStartOk : Bool) (newFile : String)
    (hp : s.hasPage = true) (hr : s.isRecording = true) :
    startRecording s ffmpegOk recorderStartOk newFile
      = (Except.ok (s.recordingFile.getD ""), s) := by
  simp [startRecording, hp, hr]

/-- Witness for the amended C1 theorem at a concrete recording state. -/
theorem startRecording_second_call_keeps_path_witness :
    startRecording
      { hasBrowser := true, hasPage := true, hasRecorder := true,
        isRecording := true, recordingFile := some "a.mp4" } false false "b.mp4"
      = (Except.ok "a.mp4",
         { hasBrowser := true, hasPage := true, hasRecorder := true,
           isRecording := true, recordingFile := some "a.mp4" }) :=
  startRecording_second_call_keeps_path
    { hasBrowser := true, hasPage := true, hasRecorder := true,
      isRecording := true, recordingFile := some "a.mp4" } false false "b.mp4" rfl rfl

/-- C5: when a recording is active, stopRecording clears the recorder handle,
the isRecording flag and the recording file path before awaiting the
underlying recorder stop call (the state observed during the await already
reads as not recording), and whatever the outcome of the underlying stop call
the controller never remains in an isRecording = true state afterwards; a
successful underlying stop returns the recording file path and a failed one
returns none, the state being cleared either way. -/
theorem stopRecording_clears_state_before_await (s : AutoState) (recorderStopOk : Bool)
    (hr : s.isRecording = true) (hh : s.hasRecorder = true) :
    (stopRecording s recorderStopOk).stateAtAwait.isRecording = false
    ∧ (stopRecording s recorderStopOk).stateAtAwait.hasRecorder = false
    ∧ (stopRecording s recorderStopOk).stateAtAwait.recordingFile = none
    ∧ (stopRecording s recorderStopOk).finalState.isRecording = false
    ∧ (recorderStopOk = true → (stopRecording s recorderStopOk).result = s.recordingFile)
    ∧ (recorderStopOk = false → (stopRecording s recorderStopOk).result = none) := by
  cases recorderStopOk <;> simp [stopRecording, hr, hh]

/-- Witness for the C5 theorem at a concrete active-recording state, with the
underlying stop call failing. -/
theorem stopRecording_clears_state_before_await_witness :
    ((stopRecording
        { hasBrowser := true, hasPage := true, hasRecorder := true,
          isRecording := true, recordingFile := some "r.mp4" } false).stateAtAwait.isRecording
        = false)
    ∧ ((stopRecording
        { hasBrowser := true, hasPage := true, hasRecorder := true,
          isRecording := true, recordingFile := some "r.mp4" } false).finalState.isRecording
        = false) := by
  have h := stopRecording_clears_state_before_await
    { hasBrowser := true, hasPage := true, hasRecorder := true,
      isRecording := true, recordingFile := some "r.mp4" } false rfl rfl
  exact ⟨h.1, h.2.2.2.1⟩

/-- Outcome of one entry strategy attempt inside
GoogleMeetAutomation.joinMeeting: the strategy returned true (success),
returned false (failure), or threw an error (thrown, caught by the
per-strategy try/catch). -/
inductive StratOutcome where
  | success
  | failure
  | thrown
deriving Repr, DecidableEq

/-- True exactly for a successful strategy outcome. -/
def isSuccess : StratOutcome → Bool
  | StratOutcome.success => true
  | _ => false

/-- Trace of the strategy loop of GoogleMeetAutomation.joinMeeting: the
boolean it returns, how many strategies of the shuffled list were attempted,
and whether the emergency fallback was attempted. -/
structure JoinTrace where
  result : Bool
  strategiesTried : Nat
  emergencyTried : Bool
deriving Repr, DecidableEq

/-- The strategy loop of GoogleMeetAutomation.joinMeeting: the shuffled
strategy outcomes are consumed strictly in order; a success returns true at
once; a failure or a thrown error (caught by the per-strategy try/catch)
moves on to the next strategy; when the list is exhausted the emergency
strategy is attempted, and its result (false also when it throws, since the
outer catch returns false) is the overall result. -/
def runStrategies (emergency : StratOutcome) : List StratOutcome → JoinTrace
  | [] =>
    { result := isSuccess emergency, strategiesTried := 0, emergencyTried := true }
  | o :: rest =>
    if isSuccess o then
      { result := true, strategiesTried := 1, emergencyTried := false }
    else
      let t := runStrategies emergency rest
      { result := t.result, strategiesTried := t.strategiesTried + 1,
        emergencyTried := t.emergencyTried }

/-- GoogleMeetAutomation.joinMeeting. launchOk is the outcome of
launchBrowser (when no browser exists yet); shuffled is the shuffled list of
strategy outcomes for this call; emergencyName is the random guest name the
emergency strategy writes into options.guestName when it runs (a thrown
emergency attempt is modelled as throwing at its initial navigation, before
that write). Returns the boolean result and the updated options and state;
every error is caught by the outer try/catch, which returns false after a
screenshot. -/
def joinMeetingAuto (a : AutoOptions) (s : AutoState) (launchOk : Bool)
    (shuffled : List StratOutcome) (emergency : StratOutcome)
    (emergencyName : String) : Bool × AutoOptions × AutoState :=
  let s1 := if s.hasBrowser then s
            else { s with hasBrowser := launchOk, hasPage := launchOk }
  if !s1.hasPage then
    (false, a, s1)
  else if (runStrategies emergency shuffled).emergencyTried then
    let a1 := if emergency = StratOutcome.thrown then a
              else { a with guestName := emergencyName }
    ((runStrategies emergency shuffled).result, a1, s1)
  else
    ((runStrategies emergency shuffled).result, a, s1)

/-- Typed error of the facade (utils/AppError): a message with an HTTP status
class, 400 for caller input errors and 500 for automation or system
failures. -/
inductive AppErr where
  | badRequest (msg : String)
  | internal (msg : String)
deriving Repr, DecidableEq

/-- Caller-supplied options of one GoogleMeetService operation
(GoogleMeetServiceOptions). The meetingUrl field is a string whose empty
value models a missing or empty URL (falsy in JS); the optional fields are
undefined when none. -/
structure GoogleMeetServiceOptions where
  meetingUrl : String
  guestName : Option String := none
  recordingPath : Option String := none
  cameraEnabled : Option Bool := none
  micEnabled : Option Bool := none
  headless : Option Bool := none
  recordingDuration : Option Nat := none
deriving Repr, DecidableEq

/-- JS or-else on an optional string: undefined and the empty string (both
falsy) fall back to the default. -/
def jsOrElse (v : Option String) (d : String) : String :=
  match v with
  | none => d
  | some s => if s = "" then d else s

/-- Options of the GoogleMeetAutomation instance built by
GoogleMeetService.initializeAutomation: guestName and recordingPath use JS
or-else defaulting, cameraEnabled and micEnabled use or-else with false, and
headless uses an undefined check with default false. The default
recordingPath resolves to the recordings directory under the working
directory. -/
def mkAutoOptions (opts : GoogleMeetServiceOptions) : AutoOptions :=
  { guestName := jsOrElse opts.guestName "EchoLog\x27s Note Taker",
    recordingPath := jsOrElse opts.recordingPath "recordings",
    cameraEnabled := opts.cameraEnabled.getD false,
    micEnabled := opts.micEnabled.getD false,
    headless := opts.headless.getD false }

/-- State of the GoogleMeetService facade singleton: the lazily constructed
automation instance (its options and runtime state) and the isInMeeting and
meetingUrl fields. -/
structure SvcState where
  meetAutomation : Option (AutoOptions × AutoState)
  isInMeeting : Bool
  meetingUrl : Option String
deriving Repr, DecidableEq

/-- Initial facade state: no automation instance, not in a meeting, no URL. -/
def SvcState.initial : SvcState :=
  { meetAutomation := none, isInMeeting := false, meetingUrl := none }

/-- GoogleMeetService.joinMeeting: rejects a missing (empty) URL with a 400
error before touching anything; otherwise lazily constructs the automation
instance (reusing an existing one unchanged, ignoring the new options),
delegates to GoogleMeetAutomation.joinMeeting, and on success sets
isInMeeting and meetingUrl; a false result becomes a 500 error with
isInMeeting and meetingUrl untouched. -/
def joinMeetingSvc (s : SvcState) (opts : GoogleMeetServiceOptions)
    (launchOk : Bool) (shuffled : List StratOutcome) (emergency : StratOutcome)
    (emergencyName : String) : Except AppErr Bool × SvcState :=
  if opts.meetingUrl = "" then
    (Except.error (AppErr.badRequest "Meeting URL is required"), s)
  else
    let a := match s.meetAutomation with
      | some a => a
      | none => (mkAutoOptions opts, AutoState.initial)
    let r := joinMeetingAuto a.1 a.2 launchOk shuffled emergency emergencyName
    let s1 : SvcState := { s with meetAutomation := some (r.2.1, r.2.2) }
    if r.1 then
      (Except.ok true,
       { s1 with isInMeeting := true, meetingUrl := some opts.meetingUrl })
    else
      (Except.error (AppErr.internal "Failed to join the meeting"), s1)

/-- GoogleMeetService.startRecording: rejects with a 400 error when the
automation instance is missing or isInMeeting is false; otherwise delegates
to GoogleMeetAutomation.startRecording, wrapping a thrown non-AppError in a
500 error. -/
def startRecordingSvc (s : SvcState) (ffmpegOk recorderStartOk : Bool)
    (newFile : String) : Except AppErr String × SvcState :=
  match s.meetAutomation with
  | none =>
    (Except.error (AppErr.badRequest "Not in a meeting. Join a meeting first."), s)
  | some a =>
    if !s.isInMeeting then
      (Except.error (AppErr.badRequest "Not in a meeting. Join a meeting first."), s)
    else
      match startRecording a.2 ffmpegOk recorderStartOk newFile with
      | (Except.ok p, s2) =>
        (Except.ok p, { s with meetAutomation := some (a.1, s2) })
      | (Except.error msg, s2) =>
        (Except.error (AppErr.internal ("Error starting recording: " ++ msg)),
         { s with meetAutomation := some (a.1, s2) })

/-- GoogleMeetService.stopRecording: rejects with a 400 error when the
automation instance is missing or isInMeeting is false; otherwise delegates
to GoogleMeetAutomation.stopRecording, which never throws. -/
def stopRecordingSvc (s : SvcState) (recorderStopOk : Bool) :
    Except AppErr (Option String) × SvcState :=
  match s.meetAutomation with
  | none => (Except.error (AppErr.badRequest "Not in a meeting"), s)
  | some a =>
    if !s.isInMeeting then
      (Except.error (AppErr.badRequest "Not in a meeting"), s)
    else
      let t := stopRecording a.2 recorderStopOk
      (Except.ok t.result, { s with meetAutomation := some (a.1, t.finalState) })

/-- GoogleMeetService.leaveMeeting: a no-op when no automation instance
exists; otherwise closes the automation and, when the close completes, nulls
the instance and resets isInMeeting and meetingUrl; a close that throws is
wrapped in a 500 error with none of the three resets performed. -/
def leaveMeetingSvc (s : SvcState) (recorderStopOk browserCloseOk : Bool) :
    Except AppErr Unit × SvcState :=
  match s.meetAutomation with
  | none => (Except.ok (), s)
  | some a =>
    let t := close a.2 recorderStopOk browserCloseOk
    if t.ok then
      (Except.ok (),
       { s with meetAutomation := none, isInMeeting := false, meetingUrl := none })
    else
      (Except.error (AppErr.internal "Error leaving meeting"),
       { s with meetAutomation := some (a.1, t.finalState) })

/-- GoogleMeetService.getMeetingStatus: a pure read of isInMeeting and
meetingUrl. -/
def getMeetingStatus (s : SvcState) : Bool × Option String :=
  (s.isInMeeting, s.meetingUrl)

/-- Characterization of the strategy loop result: it returns true exactly
when the shuffled list holds a success or the emergency attempt succeeds. -/
theorem runStrategies_result (em : StratOutcome) (sh : List StratOutcome) :
    (runStrategies em sh).result = (sh.any isSuccess || isSuccess em) := by
  induction sh with
  | nil => simp [runStrategies]
  | cons o rest ih =>
    cases ho : isSuccess o <;> simp [runStrategies, ho, ih]

/-- Characterization of the emergency fallback: it is attempted exactly when
no strategy of the shuffled list succeeds. -/
theorem runStrategies_emergencyTried (em : StratOutcome) (sh : List StratOutcome) :
    (runStrategies em sh).emergencyTried = !(sh.any isSuccess) := by
  induction sh with
  | nil => simp [runStrategies]
  | cons o rest ih =>
    cases ho : isSuccess o <;> simp [runStrategies, ho, ih]

/-- A permutation leaves the boolean any aggregate of a list unchanged. -/
theorem perm_any_eq {α : Type} (p : α → Bool) {l l' : List α} (h : l.Perm l') :
    l.any p = l'.any p := by
  cases hl : l.any p with
  | true =>
    rcases List.any_eq_true.mp hl with ⟨x, hx, hpx⟩
    exact (List.any_eq_true.mpr ⟨x, h.mem_iff.mp hx, hpx⟩).symm
  | false =>
    cases hl' : l'.any p with
    | false => rfl
    | true =>
      rcases List.any_eq_true.mp hl' with ⟨x, hx, hpx⟩
      have hc := List.any_eq_true.mpr ⟨x, h.mem_iff.mpr hx, hpx⟩
      rw [hl] at hc
      cases hc

/-- Projection lemma: when the strategy loop comes out false, the whole
joinMeeting call returns false, whatever the launch outcome. -/
theorem joinMeetingAuto_result_of_fail (a : AutoOptions) (s : AutoState) (l : Bool)
    (sh : List StratOutcome) (em : StratOutcome) (en : String)
    (h : (runStrategies em sh).result = false) :
    (joinMeetingAuto a s l sh em en).1 = false := by
  simp only [joinMeetingAuto]
  split <;> split <;> (try split) <;> simp [h]

/-- C3: strategy orchestration of joinMeeting. With pre the failing prefix of
the shuffled order: (1) the loop stops at the first successful strategy,
having attempted exactly the strategies before it plus that one, and the
emergency fallback is not attempted; (2) a failing or throwing strategy never
aborts the join: the overall result and the emergency decision are those of
the remaining strategies, with one more attempt counted; (3) when every
shuffled strategy fails, all of them are attempted and the emergency fallback
is attempted, the overall result being that of the emergency attempt; (4) the
result is shuffle-invariant: any permutation of the outcomes yields the same
overall result; (5) at the facade, when every shuffled strategy fails and the
emergency attempt also fails, and only then given a non-empty URL, the join
surfaces the typed 500 join-failure error to the caller. -/
theorem joinMeeting_strategy_orchestration
    (pre post sh sh' : List StratOutcome) (em o : StratOutcome)
    (rest : List StratOutcome) (s : SvcState) (opts : GoogleMeetServiceOptions)
    (launchOk : Bool) (emergencyName : String) :
    ((∀ x ∈ pre, isSuccess x = false) →
      runStrategies em (pre ++ StratOutcome.success :: post)
        = { result := true, strategiesTried := pre.length + 1, emergencyTried := false })
    ∧ (isSuccess o = false →
        (runStrategies em (o :: rest)).result = (runStrategies em rest).result
        ∧ (runStrategies em (o :: rest)).strategiesTried
            = (runStrategies em rest).strategiesTried + 1
        ∧ (runStrategies em (o :: rest)).emergencyTried
            = (runStrategies em rest).emergencyTried)
    ∧ ((∀ x ∈ sh, isSuccess x = false) →
        runStrategies em sh
          = { result := isSuccess em, strategiesTried := sh.length, emergencyTried := true })
    ∧ (sh.Perm sh' →
        (runStrategies em sh).result = (runStrategies em sh').result)
    ∧ (opts.meetingUrl ≠ "" → (∀ x ∈ sh, isSuccess x = false) →
        isSuccess em = false →
        (joinMeetingSvc s opts launchOk sh em emergencyName).1
          = Except.error (AppErr.internal "Failed to join the meeting")) := by
  have hallfail : ∀ (l : List StratOutcome), (∀ x ∈ l, isSuccess x = false) →
      runStrategies em l
        = { result := isSuccess em, strategiesTried := l.length, emergencyTried := true } := by
    intro l
    induction l with
    | nil => intro _; simp [runStrategies]
    | cons x xs ih =>
      intro h
      have hx : isSuccess x = false := h x (List.mem_cons_self x xs)
      have hxs := ih (fun y hy => h y (List.mem_cons_of_mem x hy))
      simp [runStrategies, hx, hxs]
  refine ⟨?_, ?_, hallfail sh, ?_, ?_⟩
  · intro hpre
    induction pre with
    | nil => simp [runStrategies, isSuccess]
    | cons x xs ih =>
      have hx : isSuccess x = false := hpre x (List.mem_cons_self x xs)
      have ihs := ih (fun y hy => hpre y (List.mem_cons_of_mem x hy))
      simp [runStrategies, hx, ihs, List.length_cons]
  · intro ho
    simp [runStrategies, ho]
  · intro hperm
    rw [runStrategies_result, runStrategies_result, perm_any_eq isSuccess hperm]
  · intro hurl hfail hem
    have hany : sh.any isSuccess = false := by
      rw [List.any_eq_false]
      intro x hx
      simp [hfail x hx]
    have hres : (runStrategies em sh).result = false := by
      rw [runStrategies_result, hany, hem]
      rfl
    cases hm : s.meetAutomation with
    | none =>
      simp [joinMeetingSvc, hurl, hm, joinMeetingAuto_result_of_fail _ _ _ _ _ _ hres]
    | some a =>
      simp [joinMeetingSvc, hurl, hm, joinMeetingAuto_result_of_fail _ _ _ _ _ _ hres]

/-- Witness for the C3 theorem: a shuffled order whose first two strategies
fail, a failing emergency fallback, and a facade join against that order,
surfacing the typed join failure. -/
theorem joinMeeting_strategy_orchestration_witness :
    runStrategies StratOutcome.failure
        [StratOutcome.thrown, StratOutcome.success, StratOutcome.failure]
      = { result := true, strategiesTried := 2, emergencyTried := false }
    ∧ (joinMeetingSvc SvcState.initial { meetingUrl := "https://meet.google.com/abc" }
        true [StratOutcome.failure, StratOutcome.thrown] StratOutcome.failure "Guest 1").1
      = Except.error (AppErr.internal "Failed to join the meeting") := by
  have h1 := (joinMeeting_strategy_orchestration
    [StratOutcome.thrown] [StratOutcome.failure]
    [StratOutcome.failure, StratOutcome.thrown] []
    StratOutcome.failure StratOutcome.failure []
    SvcState.initial { meetingUrl := "https://meet.google.com/abc" }
    true "Guest 1").1 (by decide)
  have h5 := (joinMeeting_strategy_orchestration
    [StratOutcome.thrown] [StratOutcome.failure]
    [StratOutcome.failure, StratOutcome.thrown] []
    StratOutcome.failure StratOutcome.failure []
    SvcState.initial { meetingUrl := "https://meet.google.com/abc" }
    true "Guest 1").2.2.2.2 (by decide) (by decide) (by decide)
  exact ⟨h1, h5⟩

/-- C2: the facade join contract. A missing (empty) meeting URL yields the
typed 400 error with the whole facade state untouched; every error outcome
leaves isInMeeting and meetingUrl exactly as they were (never partially in
meeting); every ok outcome carries the value true and sets isInMeeting to
true while recording the meeting URL; and with a present URL the only
possible error is the typed 500 join failure. -/
theorem joinMeetingSvc_contract (s : SvcState) (opts : GoogleMeetServiceOptions)
    (launchOk : Bool) (shuffled : List StratOutcome) (emergency : StratOutcome)
    (emergencyName : String) :
    (opts.meetingUrl = "" →
      joinMeetingSvc s opts launchOk shuffled emergency emergencyName
        = (Except.error (AppErr.badRequest "Meeting URL is required"), s))
    ∧ (∀ e, (joinMeetingSvc s opts launchOk shuffled emergency emergencyName).1
          = Except.error e →
        (joinMeetingSvc s opts launchOk shuffled emergency emergencyName).2.isInMeeting
          = s.isInMeeting
        ∧ (joinMeetingSvc s opts launchOk shuffled emergency emergencyName).2.meetingUrl
          = s.meetingUrl)
    ∧ (∀ b, (joinMeetingSvc s opts launchOk shuffled emergency emergencyName).1
          = Except.ok b →
        b = true
        ∧ (joinMeetingSvc s opts launchOk shuffled emergency emergencyName).2.isInMeeting
          = true
        ∧ (joinMeetingSvc s opts launchOk shuffled emergency emergencyName).2.meetingUrl
          = some opts.meetingUrl)
    ∧ (opts.meetingUrl ≠ "" →
       ∀ e, (joinMeetingSvc s opts launchOk shuffled emergency emergencyName).1
          = Except.error e →
        e = AppErr.internal "Failed to join the meeting") := by
  by_cases hurl : opts.meetingUrl = ""
  · simp [joinMeetingSvc, hurl]
  · cases hm : s.meetAutomation with
    | none =>
      cases hres : (joinMeetingAuto (mkAutoOptions opts) AutoState.initial launchOk
          shuffled emergency emergencyName).1 <;>
        simp [joinMeetingSvc, hurl, hm, hres]
    | some a =>
      cases hres : (joinMeetingAuto a.1 a.2 launchOk
          shuffled emergency emergencyName).1 <;>
        simp [joinMeetingSvc, hurl, hm, hres]

/-- Witness for the C2 theorem: a concrete successful join from the initial
state sets the status fields, and a concrete empty-URL join is rejected with
the 400 error leaving the state untouched. -/
theorem joinMeetingSvc_contract_witness :
    ((joinMeetingSvc SvcState.initial { meetingUrl := "https://meet.google.com/abc" }
        true [StratOutcome.success] StratOutcome.failure "Guest 2").2.isInMeeting = true
    ∧ (joinMeetingSvc SvcState.initial { meetingUrl := "https://meet.google.com/abc" }
        true [StratOutcome.success] StratOutcome.failure "Guest 2").2.meetingUrl
      = some "https://meet.google.com/abc")
    ∧ joinMeetingSvc SvcState.initial { meetingUrl := "" }
        true [StratOutcome.success] StratOutcome.failure "Guest 2"
      = (Except.error (AppErr.badRequest "Meeting URL is required"), SvcState.initial) := by
  have h1 := ((joinMeetingSvc_contract SvcState.initial
    { meetingUrl := "https://meet.google.com/abc" }
    true [StratOutcome.success] StratOutcome.failure "Guest 2").2.2.1 true rfl)
  have h2 := (joinMeetingSvc_contract SvcState.initial { meetingUrl := "" }
    true [StratOutcome.success] StratOutcome.failure "Guest 2").1 rfl
  exact ⟨⟨h1.2.1, h1.2.2⟩, h2⟩

/-- C4: with isInMeeting false (in particular before any successful join),
both facade recording operations reject with their 400 caller-input errors
and leave the whole facade state, in particular all recording state,
untouched. -/
theorem recording_requires_meeting (s : SvcState)
    (ffmpegOk recorderStartOk recorderStopOk : Bool) (newFile : String)
    (h : s.isInMeeting = false) :
    startRecordingSvc s ffmpegOk recorderStartOk newFile
      = (Except.error (AppErr.badRequest "Not in a meeting. Join a meeting first."), s)
    ∧ stopRecordingSvc s recorderStopOk
      = (Except.error (AppErr.badRequest "Not in a meeting"), s) := by
  cases hm : s.meetAutomation <;>
    simp [startRecordingSvc, stopRecordingSvc, hm, h]

/-- Witness for the C4 theorem at the initial, never-joined facade state. -/
theorem recording_requires_meeting_witness :
    startRecordingSvc SvcState.initial true true "f.mp4"
      = (Except.error (AppErr.badRequest "Not in a meeting. Join a meeting first."),
         SvcState.initial)
    ∧ stopRecordingSvc SvcState.initial true
      = (Except.error (AppErr.badRequest "Not in a meeting"), SvcState.initial) :=
  recording_requires_meeting SvcState.initial true true true "f.mp4" rfl

/-- Helper: a close whose underlying browser close succeeds always completes
without throwing. -/
theorem close_ok_of_browserCloseOk (s : AutoState) (recorderStopOk : Bool) :
    (close s recorderStopOk true).ok = true := by
  simp only [close]
  split <;> split <;> simp

/-- C6 counterexample: on a facade state whose automation instance holds a
live browser, a leave whose underlying browser close fails raises the typed
500 error instead of succeeding, refuting the claim that leave always
succeeds. -/
theorem leaveMeeting_can_fail :
    (leaveMeetingSvc
      { meetAutomation := some
          ({ guestName := "G", recordingPath := "recordings",
             cameraEnabled := false, micEnabled := false, headless := false },
           { hasBrowser := true, hasPage := true, hasRecorder := false,
             isRecording := false, recordingFile := none }),
        isInMeeting := true, meetingUrl := some "https://meet.google.com/abc" }
      true false).1
      = Except.error (AppErr.internal "Error leaving meeting") := by
  rfl

/-- C6 amended: leave on a manager without an automation instance (in
particular one that was never joined) is a no-op that completes without
error, the initial state further reporting status isInMeeting false and
meetingUrl null; when an automation instance exists and the underlying
browser close succeeds, leave completes without error and resets all session
state to empty (so a repeated leave is again a no-op); but when the
underlying browser close fails, leave raises the typed 500 error and the
session state is not reset. -/
theorem leaveMeeting_contract (s : SvcState) (recorderStopOk browserCloseOk : Bool) :
    (s.meetAutomation = none →
      leaveMeetingSvc s recorderStopOk browserCloseOk = (Except.ok (), s))
    ∧ (leaveMeetingSvc SvcState.initial recorderStopOk browserCloseOk
        = (Except.ok (), SvcState.initial)
      ∧ getMeetingStatus SvcState.initial = (false, none))
    ∧ (∀ a, s.meetAutomation = some a →
        leaveMeetingSvc s recorderStopOk true
          = (Except.ok (),
             { meetAutomation := none, isInMeeting := false, meetingUrl := none }))
    ∧ (∀ a, s.meetAutomation = some a →
        (close a.2 recorderStopOk browserCloseOk).ok = false →
        (leaveMeetingSvc s recorderStopOk browserCloseOk).1
          = Except.error (AppErr.internal "Error leaving meeting")
        ∧ (leaveMeetingSvc s recorderStopOk browserCloseOk).2.isInMeeting = s.isInMeeting
        ∧ (leaveMeetingSvc s recorderStopOk browserCloseOk).2.meetingUrl = s.meetingUrl) := by
  refine ⟨?_, ?_, ?_, ?_⟩
  · intro hm
    simp [leaveMeetingSvc, hm]
  · constructor
    · rfl
    · rfl
  · intro a hm
    simp [leaveMeetingSvc, hm, close_ok_of_browserCloseOk]
  · intro a hm hko
    simp [leaveMeetingSvc, hm, hko]

/-- Witness for the C6 amended theorem: the initial never-joined state leaves
without error with status fields clear, and a concrete joined state with a
live browser resets fully when the close succeeds. -/
theorem leaveMeeting_contract_witness :
    leaveMeetingSvc SvcState.initial true true = (Except.ok (), SvcState.initial)
    ∧ leaveMeetingSvc
        { meetAutomation := some
            ({ guestName := "G", recordingPath := "recordings",
               cameraEnabled := false, micEnabled := false, headless := false },
             { hasBrowser := true, hasPage := true, hasRecorder := false,
               isRecording := false, recordingFile := none }),
          isInMeeting := true, meetingUrl := some "https://meet.google.com/abc" }
        true true
      = (Except.ok (),
         { meetAutomation := none, isInMeeting := false, meetingUrl := none }) := by
  have h1 := (leaveMeeting_contract SvcState.initial true true).1 rfl
  have h2 := ((leaveMeeting_contract
    { meetAutomation := some
        ({ guestName := "G", recordingPath := "recordings",
           cameraEnabled := false, micEnabled := false, headless := false },
         { hasBrowser := true, hasPage := true, hasRecorder := false,
           isRecording := false, recordingFile := none }),
      isInMeeting := true, meetingUrl := some "https://meet.google.com/abc" }
    true true).2.2.1
    ({ guestName := "G", recordingPath := "recordings",
       cameraEnabled := false, micEnabled := false, headless := false },
     { hasBrowser := true, hasPage := true, hasRecorder := false,
       isRecording := false, recordingFile := none }) rfl)
  exact ⟨h1, h2⟩

/-- One facade operation together with the external outcomes it consumes.
The status operation is the pure getMeetingStatus read. -/
inductive SvcOp where
  | join (opts : GoogleMeetServiceOptions) (launchOk : Bool)
      (shuffled : List StratOutcome) (emergency : StratOutcome) (emergencyName : String)
  | startRec (ffmpegOk recorderStartOk : Bool) (newFile : String)
  | stopRec (recorderStopOk : Bool)
  | leave (recorderStopOk browserCloseOk : Bool)
  | status
deriving Repr

/-- Facade state reached after one completed operation (also after one that
raised, since the facade survives its own errors); status is the pure read
getMeetingStatus and leaves the state as it is. -/
def svcStep (s : SvcState) : SvcOp → SvcState
  | SvcOp.join opts l sh em en => (joinMeetingSvc s opts l sh em en).2
  | SvcOp.startRec f r nf => (startRecordingSvc s f r nf).2
  | SvcOp.stopRec ok => (stopRecordingSvc s ok).2
  | SvcOp.leave a b => (leaveMeetingSvc s a b).2
  | SvcOp.status => ((getMeetingStatus s).1, (getMeetingStatus s).2, s).2.2

/-- Facade state after a sequence of operations. -/
def svcRun (s : SvcState) (ops : List SvcOp) : SvcState :=
  ops.foldl svcStep s

/-- Helper: one facade step preserves the coherence of the two status
fields. -/
theorem svcStep_coherent (s : SvcState) (op : SvcOp)
    (h : s.isInMeeting = s.meetingUrl.isSome) :
    (svcStep s op).isInMeeting = (svcStep s op).meetingUrl.isSome := by
  cases op with
  | join opts l sh em en =>
    by_cases hurl : opts.meetingUrl = ""
    · simpa [svcStep, joinMeetingSvc, hurl] using h
    · cases hm : s.meetAutomation with
      | none =>
        cases hres : (joinMeetingAuto (mkAutoOptions opts) AutoState.initial l
            sh em en).1
        · simpa [svcStep, joinMeetingSvc, hurl, hm, hres] using h
        · simp [svcStep, joinMeetingSvc, hurl, hm, hres]
      | some a =>
        cases hres : (joinMeetingAuto a.1 a.2 l sh em en).1
        · simpa [svcStep, joinMeetingSvc, hurl, hm, hres] using h
        · simp [svcStep, joinMeetingSvc, hurl, hm, hres]
  | startRec f r nf =>
    cases hm : s.meetAutomation with
    | none => simpa [svcStep, startRecordingSvc, hm] using h
    | some a =>
      by_cases hin : s.isInMeeting
      · rcases hsr : startRecording a.2 f r nf with ⟨res, s2⟩
        cases res <;> simpa [svcStep, startRecordingSvc, hm, hin, hsr] using h
      · simpa [svcStep, startRecordingSvc, hm, hin] using h
  | stopRec ok =>
    cases hm : s.meetAutomation with
    | none => simpa [svcStep, stopRecordingSvc, hm] using h
    | some a =>
      by_cases hin : s.isInMeeting
      · simpa [svcStep, stopRecordingSvc, hm, hin] using h
      · simpa [svcStep, stopRecordingSvc, hm, hin] using h
  | leave a b =>
    cases hm : s.meetAutomation with
    | none => simpa [svcStep, leaveMeetingSvc, hm] using h
    | some p =>
      cases hc : (close p.2 a b).ok
      · simpa [svcStep, leaveMeetingSvc, hm, hc] using h
      · simp [svcStep, leaveMeetingSvc, hm, hc]
  | status => simpa [svcStep, getMeetingStatus] using h

/-- C9: invariant of the facade. Starting from the initial state, after every
sequence of completed operations (join, start recording, stop recording,
leave, status, with any outcomes of the external world), isInMeeting is true
exactly when meetingUrl is non-null: the two status fields are set together
and cleared together. -/
theorem meeting_status_fields_coherent (ops : List SvcOp) :
    (svcRun SvcState.initial ops).isInMeeting
      = (svcRun SvcState.initial ops).meetingUrl.isSome := by
  have main : ∀ (l : List SvcOp) (s : SvcState),
      s.isInMeeting = s.meetingUrl.isSome →
      (svcRun s l).isInMeeting = (svcRun s l).meetingUrl.isSome := by
    intro l
    induction l with
    | nil => intro s h; exact h
    | cons op rest ih =>
      intro s h
      exact ih (svcStep s op) (svcStep_coherent s op h)
  exact main ops SvcState.initial rfl

/-- C10 counterexample: a facade whose automation instance was constructed
with guest name Alice, joined again without an intervening leave; every
strategy fails and the emergency fallback runs, so after the call the
instance carries the freshly generated emergency guest name instead of its
original configuration: the instance is not reused unchanged. -/
theorem joinMeeting_emergency_renames_guest :
    ((joinMeetingSvc
        { meetAutomation := some
            ({ guestName := "Alice", recordingPath := "recordings",
               cameraEnabled := false, micEnabled := false, headless := false },
             { hasBrowser := true, hasPage := true, hasRecorder := false,
               isRecording := false, recordingFile := none }),
          isInMeeting := true, meetingUrl := some "https://meet.google.com/abc" }
        { meetingUrl := "https://meet.google.com/abc", guestName := some "Alice" }
        true [StratOutcome.failure, StratOutcome.failure, StratOutcome.failure]
        StratOutcome.failure "Guest 42").2.meetAutomation.map
        (fun p => p.1.guestName))
      = some "Guest 42" := by
  rfl

/-- Helper: the options record coming out of one joinMeeting call never takes
its recordingPath, cameraEnabled, micEnabled or headless fields from anywhere
but the instance; and the whole record is untouched whenever some shuffled
strategy succeeds or the emergency attempt throws at its navigation. -/
theorem joinMeetingAuto_options (a : AutoOptions) (s : AutoState) (l : Bool)
    (sh : List StratOutcome) (em : StratOutcome) (en : String) :
    ((joinMeetingAuto a s l sh em en).2.1.recordingPath = a.recordingPath
      ∧ (joinMeetingAuto a s l sh em en).2.1.cameraEnabled = a.cameraEnabled
      ∧ (joinMeetingAuto a s l sh em en).2.1.micEnabled = a.micEnabled
      ∧ (joinMeetingAuto a s l sh em en).2.1.headless = a.headless)
    ∧ (sh.any isSuccess = true → (joinMeetingAuto a s l sh em en).2.1 = a)
    ∧ (em = StratOutcome.thrown → (joinMeetingAuto a s l sh em en).2.1 = a) := by
  simp only [joinMeetingAuto]
  split <;> split <;> (try split) <;> (try split) <;>
    simp_all [runStrategies_emergencyTried]

/-- Helper: with a non-empty URL and an existing instance, the instance slot
after a join holds exactly the options and state coming out of
GoogleMeetAutomation.joinMeeting applied to the stored instance. -/
theorem joinMeetingSvc_meetAutomation_some (s : SvcState) (a : AutoOptions × AutoState)
    (opts : GoogleMeetServiceOptions) (l : Bool) (sh : List StratOutcome)
    (em : StratOutcome) (en : String) (hurl : opts.meetingUrl ≠ "")
    (hm : s.meetAutomation = some a) :
    (joinMeetingSvc s opts l sh em en).2.meetAutomation
      = some ((joinMeetingAuto a.1 a.2 l sh em en).2.1,
              (joinMeetingAuto a.1 a.2 l sh em en).2.2) := by
  cases hres : (joinMeetingAuto a.1 a.2 l sh em en).1 <;>
    simp [joinMeetingSvc, hurl, hm, hres]

/-- Helper: with a non-empty URL and no instance yet, the instance slot after
a join holds the options and state coming out of
GoogleMeetAutomation.joinMeeting applied to a freshly constructed instance
whose options come from the caller options of this call. -/
theorem joinMeetingSvc_meetAutomation_fresh (s : SvcState)
    (opts : GoogleMeetServiceOptions) (l : Bool) (sh : List StratOutcome)
    (em : StratOutcome) (en : String) (hurl : opts.meetingUrl ≠ "")
    (hm : s.meetAutomation = none) :
    (joinMeetingSvc s opts l sh em en).2.meetAutomation
      = some ((joinMeetingAuto (mkAutoOptions opts) AutoState.initial l sh em en).2.1,
              (joinMeetingAuto (mkAutoOptions opts) AutoState.initial l sh em en).2.2) := by
  cases hres : (joinMeetingAuto (mkAutoOptions opts) AutoState.initial l sh em en).1 <;>
    simp [joinMeetingSvc, hurl, hm, hres]

/-- C10 amended: once a joinMeeting call has constructed the automation
instance, every later joinMeeting call without an intervening leaveMeeting
reuses that instance and silently ignores the later call recordingPath,
cameraEnabled, micEnabled and headless options, which stay as constructed;
the guestName also stays as constructed whenever the URL is missing, some
shuffled strategy succeeds, or the emergency attempt throws at its
navigation, but a join that falls through to a running emergency fallback
overwrites the instance guestName with the freshly generated emergency name;
a leave whose browser close succeeds nulls the instance, after which a fresh
join constructs a new instance whose configuration is taken from the new
caller options. -/
theorem automation_instance_reuse (s : SvcState) (ao : AutoOptions) (ast : AutoState)
    (opts2 : GoogleMeetServiceOptions) (launchOk : Bool) (shuffled : List StratOutcome)
    (emergency : StratOutcome) (emergencyName : String) (recorderStopOk : Bool)
    (hm : s.meetAutomation = some (ao, ast)) :
    ((joinMeetingSvc s opts2 launchOk shuffled emergency emergencyName).2.meetAutomation.map
        (fun p => (p.1.recordingPath, p.1.cameraEnabled, p.1.micEnabled, p.1.headless)))
      = some (ao.recordingPath, ao.cameraEnabled, ao.micEnabled, ao.headless)
    ∧ ((opts2.meetingUrl = "" ∨ shuffled.any isSuccess = true
         ∨ emergency = StratOutcome.thrown) →
       ((joinMeetingSvc s opts2 launchOk shuffled emergency
           emergencyName).2.meetAutomation.map (fun p => p.1.guestName))
         = some ao.guestName)
    ∧ (leaveMeetingSvc s recorderStopOk true).2.meetAutomation = none
    ∧ (∀ s0 : SvcState, s0.meetAutomation = none → opts2.meetingUrl ≠ "" →
        ((joinMeetingSvc s0 opts2 launchOk shuffled emergency
            emergencyName).2.meetAutomation.map
           (fun p => (p.1.recordingPath, p.1.cameraEnabled, p.1.micEnabled, p.1.headless)))
          = some ((mkAutoOptions opts2).recordingPath, (mkAutoOptions opts2).cameraEnabled,
                  (mkAutoOptions opts2).micEnabled, (mkAutoOptions opts2).headless)) := by
  refine ⟨?_, ?_, ?_, ?_⟩
  · by_cases hurl : opts2.meetingUrl = ""
    · simp [joinMeetingSvc, hurl, hm]
    · rw [joinMeetingSvc_meetAutomation_some s (ao, ast) opts2 launchOk shuffled
        emergency emergencyName hurl hm]
      have h := (joinMeetingAuto_options ao ast launchOk shuffled emergency emergencyName).1
      simp [h.1, h.2.1, h.2.2.1, h.2.2.2]
  · intro hcase
    by_cases hurl : opts2.meetingUrl = ""
    · simp [joinMeetingSvc, hurl, hm]
    · rw [joinMeetingSvc_meetAutomation_some s (ao, ast) opts2 launchOk shuffled
        emergency emergencyName hurl hm]
      rcases hcase with hcase | hcase | hcase
      · exact absurd hcase hurl
      · have h := (joinMeetingAuto_options ao ast launchOk shuffled emergency
          emergencyName).2.1 hcase
        simp [h]
      · have h := (joinMeetingAuto_options ao ast launchOk shuffled emergency
          emergencyName).2.2 hcase
        simp [h]
  · simp [leaveMeetingSvc, hm, close_ok_of_browserCloseOk]
  · intro s0 hm0 hurl
    rw [joinMeetingSvc_meetAutomation_fresh s0 opts2 launchOk shuffled emergency
      emergencyName hurl hm0]
    have h := (joinMeetingAuto_options (mkAutoOptions opts2) AutoState.initial launchOk
      shuffled emergency emergencyName).1
    simp [h.1, h.2.1, h.2.2.1, h.2.2.2]

/-- Witness for the C10 amended theorem at a concrete joined facade: a second
join whose first shuffled strategy succeeds keeps the constructed guest name,
and a successful leave nulls the instance. -/
theorem automation_instance_reuse_witness :
    ((joinMeetingSvc
        { meetAutomation := some
            ({ guestName := "Alice", recordingPath := "recordings",
               cameraEnabled := false, micEnabled := false, headless := false },
             { hasBrowser := true, hasPage := true, hasRecorder := false,
               isRecording := false, recordingFile := none }),
          isInMeeting := true, meetingUrl := some "https://meet.google.com/abc" }
        { meetingUrl := "https://meet.google.com/xyz", guestName := some "Mallory" }
        true [StratOutcome.success] StratOutcome.failure
        "Guest 9").2.meetAutomation.map (fun p => p.1.guestName))
      = some "Alice"
    ∧ (leaveMeetingSvc
        { meetAutomation := some
            ({ guestName := "Alice", recordingPath := "recordings",
               cameraEnabled := false, micEnabled := false, headless := false },
             { hasBrowser := true, hasPage := true, hasRecorder := false,
               isRecording := false, recordingFile := none }),
          isInMeeting := true, meetingUrl := some "https://meet.google.com/abc" }
        true true).2.meetAutomation = none := by
  have h := automation_instance_reuse
    { meetAutomation := some
        ({ guestName := "Alice", recordingPath := "recordings",
           cameraEnabled := false, micEnabled := false, headless := false },
         { hasBrowser := true, hasPage := true, hasRecorder := false,
           isRecording := false, recordingFile := none }),
      isInMeeting := true, meetingUrl := some "https://meet.google.com/abc" }
    { guestName := "Alice", recordingPath := "recordings",
      cameraEnabled := false, micEnabled := false, headless := false }
    { hasBrowser := true, hasPage := true, hasRecorder := false,
      isRecording := false, recordingFile := none }
    { meetingUrl := "https://meet.google.com/xyz", guestName := some "Mallory" }
    true [StratOutcome.success] StratOutcome.failure "Guest 9" true rfl
  exact ⟨h.2.1 (Or.inr (Or.inl rfl)), h.2.2.1⟩

/-- One device control button on the pre-join screen, as _configureDevices
reads it: whether its data-is-muted attribute equals the string true, and
whether its aria-label contains the word off respectively disabled. -/
structure DevButton where
  isMuted : Bool
  labelHasOff : Bool
  labelHasDisabled : Bool
deriving Repr, DecidableEq

/-- Method 1 of _configureDevices (the toggleDevice helper run in the page):
walk the matched buttons in order and click the first one whose current
enabled state, read from data-is-muted, differs from the desired state;
return the index clicked, none when every button already matches (or none
matched). -/
def toggleDevice (shouldBeEnabled : Bool) : List DevButton → Option Nat
  | [] => none
  | b :: rest =>
    if (!b.isMuted) != shouldBeEnabled then some 0
    else (toggleDevice shouldBeEnabled rest).map (fun i => i + 1)

/-- The per-device part of _configureDevices: Method 1 first; when it did not
click (toggled none), Method 2 takes the first matched button, reads its
aria-label, and clicks it whenever the label contains off or disabled
(the source compares the current state against the constant true, not against
the desired state). Returns the indices of the buttons clicked. -/
def configureDevice (desired : Bool) (buttons : List DevButton) : List Nat :=
  match toggleDevice desired buttons with
  | some i => [i]
  | none =>
    match buttons with
    | [] => []
    | b :: _ => if b.labelHasOff || b.labelHasDisabled then [0] else []

/-- C7: the code at the failing input. Desired camera state disabled, and the
single camera control already muted (its label reads camera is off): Method 1
correctly clicks nothing, but the Method 2 fallback clicks this
already-correct control (flipping the camera on), because it compares the
current state against the constant true instead of the desired state. The
conjunct records that the clicked control was already in the desired state:
its enabled reading equals the desired value false. -/
theorem configureDevice_clicks_correct_control :
    configureDevice false
        [{ isMuted := true, labelHasOff := true, labelHasDisabled := false }] = [0]
    ∧ (!(DevButton.isMuted
          { isMuted := true, labelHasOff := true, labelHasDisabled := false })) = false
    ∧ toggleDevice false
        [{ isMuted := true, labelHasOff := true, labelHasDisabled := false }] = none := by
  refine ⟨rfl, rfl, rfl⟩

/-- One keyboard event that _humanLikeType emits into the focused field. -/
inductive KeyEvent where
  | typeChar (c : Char)
  | backspace
deriving Repr, DecidableEq

/-- Effect of one keyboard event on the field value. -/
def applyKey (field : List Char) : KeyEvent → List Char
  | KeyEvent.typeChar c => field ++ [c]
  | KeyEvent.backspace => field.dropLast

/-- Effect of a sequence of keyboard events on the field value. -/
def applyKeys (field : List Char) (evs : List KeyEvent) : List Char :=
  evs.foldl applyKey field

/-- The keyboard events of the main loop of _humanLikeType: for each
character, when the random typo draw fires and at least two characters remain
after this one, a nearby wrong character (wrongOf of the intended one) is
typed and then deleted with one backspace; then the correct character is
typed. The typos list holds the random draws, one per character. -/
def humanTypeEvents (wrongOf : Char → Char) : List Char → List Bool → List KeyEvent
  | [], _ => []
  | c :: rest, typos =>
    (if typos.headD false && decide (2 ≤ rest.length) then
      [KeyEvent.typeChar (wrongOf c), KeyEvent.backspace, KeyEvent.typeChar c]
    else
      [KeyEvent.typeChar c])
    ++ humanTypeEvents wrongOf rest typos.tail

/-- The whole _humanLikeType call on the field value: the field is first
cleared (select-all plus backspace), then the main loop runs. The initial
field content, the typo randomness and the wrong-character choice are
explicit inputs. -/
def humanLikeType (_initial : List Char) (wrongOf : Char → Char)
    (text : List Char) (typos : List Bool) : List Char :=
  applyKeys [] (humanTypeEvents wrongOf text typos)

/-- Helper: the main typing loop appends exactly the requested text to the
field, whatever the typo draws and wrong characters, since each injected
wrong character is deleted by the following backspace. -/
theorem applyKeys_humanTypeEvents (wrongOf : Char → Char) (text : List Char) :
    ∀ (typos : List Bool) (field : List Char),
      applyKeys field (humanTypeEvents wrongOf text typos) = field ++ text := by
  induction text with
  | nil => intro typos field; simp [humanTypeEvents, applyKeys]
  | cons c rest ih =>
    intro typos field
    by_cases h : typos.headD false && decide (2 ≤ rest.length)
    · simp only [humanTypeEvents, if_pos h]
      have step : applyKeys field
          ([KeyEvent.typeChar (wrongOf c), KeyEvent.backspace, KeyEvent.typeChar c]
            ++ humanTypeEvents wrongOf rest typos.tail)
          = applyKeys ((field ++ [wrongOf c]).dropLast ++ [c])
              (humanTypeEvents wrongOf rest typos.tail) := rfl
      rw [step, List.dropLast_concat, ih typos.tail (field ++ [c])]
      simp
    · simp only [humanTypeEvents, if_neg h]
      have step : applyKeys field
          ([KeyEvent.typeChar c] ++ humanTypeEvents wrongOf rest typos.tail)
          = applyKeys (field ++ [c]) (humanTypeEvents wrongOf rest typos.tail) := rfl
      rw [step, ih typos.tail (field ++ [c])]
      simp

/-- C8: typo injection is content-neutral. For every initial field content,
every requested text, every sequence of typo draws and every wrong-character
choice, _humanLikeType leaves the field value exactly equal to the requested
text. -/
theorem humanLikeType_content_neutral (initial : List Char) (wrongOf : Char → Char)
    (text : List Char) (typos : List Bool) :
    humanLikeType initial wrongOf text typos = text := by
  rw [humanLikeType, applyKeys_humanTypeEvents]
  simp

end EchoLog
